import Mathlib

/-!
# Verification of the Transfermarkt injury scraper

Shallow embedding of `scraper/transfermarkt_scraper.py`.

Modelling conventions:
* A pandas `DataFrame` is a list of column names plus a list of rows; every
  cell is `Option String` (`none` models NaN / pd.NA; the container's dtype
  inference is a black box per the design, so all values are kept as the
  strings extracted from the page).
* The network is an explicit oracle `fetch : String → Except ScrapeError Page`;
  `Except.error` models a transport failure (`raise_for_status` / connection
  error).  A fetched `Page` carries exactly the features the scraper reads:
  the first `table.items` node (already run through `pd.read_html`, hence a
  `RawTable` with possibly two-level columns), the text of the first `h1`,
  and the `href`s of all anchors.
* Each scraper function also returns the list of URLs it requested, in
  order, so that statements like "fails before any network call" and
  "the derived URL is the one fetched" are expressible.
* `time.sleep` (the politeness pause) has no observable effect on the
  returned data and is not modelled.
-/

namespace Scraper

/-- The failures the scraper can raise: `ValueError` (configuration),
`RuntimeError` (table not found), transport errors from `requests`,
`AttributeError` (missing `h1` / `.str` on a non-Series) and `KeyError`
(missing column).  Each carries its message, which is all the batch
driver ever uses (`str(ex)`). -/
inductive ScrapeError where
  | valueError (msg : String)
  | runtimeError (msg : String)
  | transportError (msg : String)
  | attributeError (msg : String)
  | keyError (msg : String)
deriving DecidableEq, Repr

/-- The message carried by an exception, i.e. `str(ex)`. -/
def errMsg : ScrapeError → String
  | .valueError m => m
  | .runtimeError m => m
  | .transportError m => m
  | .attributeError m => m
  | .keyError m => m

/-- The column index of a table produced by `pd.read_html`: either a flat
list of names or a two-level `MultiIndex` of (outer, inner) pairs, where an
inner label can be absent (`None`) or empty. -/
inductive Columns where
  | flat (names : List String)
  | multi (pairs : List (String × Option String))
deriving DecidableEq, Repr

/-- A table as parsed from the page, before column flattening. -/
structure RawTable where
  cols : Columns
  rows : List (List (Option String))
deriving DecidableEq, Repr

/-- A pandas DataFrame after column flattening: flat column names, rows of
(possibly missing) string cells. -/
structure DataFrame where
  cols : List String
  rows : List (List (Option String))
deriving DecidableEq, Repr

/-- What the scraper reads from a fetched page: the first `table` with class
`items` (if any), the first `h1` heading text (if any), and all anchor
`href`s. -/
structure Page where
  itemsTable : Option RawTable
  h1 : Option String
  anchors : List String
deriving DecidableEq, Repr

/-- The helper `_flatten_columns(cols)`: on a `MultiIndex`, use the inner label unless
it is `""` or `None`, in which case use the outer label; a flat index is
returned as is. -/
def flatten_columns : Columns → List String
  | .flat names => names
  | .multi pairs => pairs.map (fun p =>
      match p.2 with
      | none => p.1
      | some s => if s = "" then p.1 else s)

/-! String primitives, implemented by structural recursion on the character
list so that they evaluate inside the kernel.  They model the Python `str`
methods the scraper uses (`strip`, `rstrip("/")`, `re.sub` with a literal
pattern, `split("?")[0]`, substring containment, `startswith`). -/

/-- Python `s.strip()`: remove leading and trailing whitespace. -/
def pyStrip (s : String) : String :=
  ⟨((s.data.dropWhile Char.isWhitespace).reverse.dropWhile
      Char.isWhitespace).reverse⟩

/-- Python `s.rstrip("/")`: remove all trailing slashes. -/
def pyRStripSlash (s : String) : String :=
  ⟨(s.data.reverse.dropWhile (fun c => c = '/')).reverse⟩

/-- One fuel-indexed pass of left-to-right non-overlapping replacement of
the (non-empty) pattern; fuel bounds the number of consumed characters. -/
def replaceLoop (pat rep : List Char) : Nat → List Char → List Char
  | _, [] => []
  | 0, l => l
  | fuel + 1, c :: cs =>
      if pat ≠ [] ∧ pat.isPrefixOf (c :: cs) then
        rep ++ replaceLoop pat rep fuel (cs.drop (pat.length - 1))
      else c :: replaceLoop pat rep fuel cs

/-- Python `re.sub(pat, rep, s)` for a literal non-empty pattern: every
non-overlapping occurrence, scanned left to right. -/
def pyReplace (s pat rep : String) : String :=
  ⟨replaceLoop pat.data rep.data s.data.length s.data⟩

/-- Substring occurrence test on character lists. -/
def containsSubAux (pat : List Char) : List Char → Bool
  | [] => pat.isEmpty
  | c :: cs => pat.isPrefixOf (c :: cs) || containsSubAux pat cs

/-- Split at the first occurrence of the (non-empty) pattern: the part
before it and the part after it, or `none` when it never occurs. -/
def splitFirstSub (pat : List Char) : List Char → Option (List Char × List Char)
  | [] => none
  | c :: cs =>
      if pat.isPrefixOf (c :: cs) then some ([], (c :: cs).drop pat.length)
      else (splitFirstSub pat cs).map (fun p => (c :: p.1, p.2))

/-- Python `s.startswith(pre)`. -/
def strStarts (s pre : String) : Bool :=
  pre.data.isPrefixOf s.data

/-- Python `s.split("\n", 1)` at the character-list level: locate the first
newline and split there, or return `none` when no newline occurs. -/
def splitN1Aux : List Char → Option (List Char × List Char)
  | [] => none
  | c :: cs =>
      if c = '\n' then some ([], cs)
      else (splitN1Aux cs).map (fun p => (c :: p.1, p.2))

/-- Python `s.split("\n", 1)` repackaged as (first part, optional rest):
at most one split, at the first newline. -/
def splitN1 (s : String) : String × Option String :=
  match splitN1Aux s.data with
  | none => (s, none)
  | some p => (⟨p.1⟩, some ⟨p.2⟩)

/-- Lines 75–83: `df["Player/Position"].str.split("\n", n=1, expand=True)`
renamed to `Player`/`Position`, with the `Position` column added (all NA)
when no row produced a second segment.  `expand=True` yields a second
column exactly when some non-missing value contains a newline; a missing
value (`NaN`) splits to a fully missing row. -/
def splitPlayerPositionDF (vals : List (Option String)) : DataFrame :=
  let parts := vals.map (Option.map splitN1)
  let twoCols := parts.any (fun p =>
    match p with
    | some q => q.2.isSome
    | none => false)
  let base : DataFrame :=
    if twoCols then
      ⟨["Player", "Position"],
       parts.map (fun p =>
         match p with
         | none => [none, none]
         | some q => [some q.1, q.2])⟩
    else
      ⟨["Player"],
       parts.map (fun p =>
         match p with
         | none => [none]
         | some q => [some q.1])⟩
  if "Position" ∈ base.cols then base
  else ⟨base.cols ++ ["Position"], base.rows.map (fun r => r ++ [none])⟩

/-- Pandas `df.rename(columns=...)` applied to every column name. -/
def renameWith (f : String → String) (df : DataFrame) : DataFrame :=
  ⟨df.cols.map f, df.rows⟩

/-- The league-view rename dictionary of lines 86–94. -/
def leagueRename (c : String) : String :=
  if c = "Club" then "Team"
  else if c = "Injury" then "Injury Type"
  else if c = "until" then "Expected Return"
  else if c = "Market Value" then "Market Value (€)"
  else c

/-- The player-history rename dictionary of lines 146–155. -/
def historyRename (c : String) : String :=
  if c = "From" then "Start"
  else if c = "Until" then "End"
  else if c = "Days" then "Days Missed"
  else if c = "Games missed" then "Games Missed"
  else if c = "Matches missed" then "Games Missed"
  else c

/-- Line 97 / 161: `.str.strip()` on every (string-valued) cell; `NaN`
stays `NaN`. -/
def stripDF (df : DataFrame) : DataFrame :=
  ⟨df.cols, df.rows.map (fun r => r.map (Option.map pyStrip))⟩

/-- The values of column `i` of a DataFrame (missing cells are `NaN`). -/
def colValues (df : DataFrame) (i : Nat) : List (Option String) :=
  df.rows.map (fun r => r.getD i none)

/-- Pandas `df.drop(columns=name)`: remove every column labelled `name`, keeping
the cells of the remaining columns. -/
def dropCol (df : DataFrame) (name : String) : DataFrame :=
  let keep := (List.range df.cols.length).filter
    (fun i => df.cols.getD i "" ≠ name)
  ⟨keep.map (fun i => df.cols.getD i ""),
   df.rows.map (fun r => keep.map (fun i => r.getD i none))⟩

/-- Pandas `pd.concat([a, b], axis=1)` for two frames with the same number of
rows (as always the case on line 83): columns appended, rows zipped. -/
def hconcat (a b : DataFrame) : DataFrame :=
  ⟨a.cols ++ b.cols, List.zipWith (fun r s => r ++ s) a.rows b.rows⟩

/-- Python truthiness of an optional string parameter: `None` and `""` are
falsy (`if country_name:` / `if not league_slug or not league_code:`). -/
def truthy : Option String → Bool
  | none => false
  | some s => !s.isEmpty

/-- The static `LEAGUE_MAP` of lines 22–28. -/
def LEAGUE_MAP : String → Option (String × String) := fun c =>
  if c = "Spain" then some ("laliga", "ES1")
  else if c = "England" then some ("premier-league", "GB1")
  else if c = "Italy" then some ("serie-a", "IT1")
  else if c = "Germany" then some ("bundesliga", "L1")
  else if c = "France" then some ("ligue-1", "FR1")
  else none

def BASE_URL : String := "https://www.transfermarkt.us"

/-- Lines 53–59: resolve the target to a (slug, code) pair.  A truthy
`country_name` is looked up in `LEAGUE_MAP` (overwriting any supplied
slug/code); an unmapped name raises `ValueError`.  Afterwards both slug
and code must be truthy or a `ValueError` is raised. -/
def resolveLeague (country_name league_slug league_code : Option String) :
    Except ScrapeError (String × String) :=
  let looked : Except ScrapeError (Option String × Option String) :=
    if truthy country_name then
      match LEAGUE_MAP (country_name.getD "") with
      | some p => .ok (some p.1, some p.2)
      | none => .error (.valueError
          "País não mapeado; informe slug e código manualmente.")
    else .ok (league_slug, league_code)
  match looked with
  | .error e => .error e
  | .ok (s, c) =>
      if truthy s && truthy c then .ok (s.getD "", c.getD "")
      else .error (.valueError "Faltou league_slug ou league_code.")

/-- Line 61: the league injuries URL. -/
def leagueUrl (slug code : String) : String :=
  BASE_URL ++ "/" ++ slug ++ "/verletztespieler/wettbewerb/" ++ code

/-- The league table after `_flatten_columns` (line 72). -/
def leagueFlat (raw : RawTable) : DataFrame :=
  ⟨flatten_columns raw.cols, raw.rows⟩

/-- Index of the `Player/Position` column in the flattened league table. -/
def ppIndex (raw : RawTable) : Nat :=
  (leagueFlat raw).cols.findIdx (fun c => c == "Player/Position")

/-- The values of the `Player/Position` column (line 76). -/
def ppValues (raw : RawTable) : List (Option String) :=
  colValues (leagueFlat raw) (ppIndex raw)

/-- Lines 72–98: flatten columns, split `Player/Position`, drop the
combined column and concatenate the split, rename to the canonical
league vocabulary, strip text cells.  `df["Player/Position"]` raises
`KeyError` when the column is absent; when the label is duplicated the
selection is a DataFrame and `.str` raises `AttributeError`. -/
def processLeagueTable (raw : RawTable) : Except ScrapeError DataFrame :=
  let df := leagueFlat raw
  if df.cols.count "Player/Position" = 0 then
    .error (.keyError "Player/Position")
  else if df.cols.count "Player/Position" = 1 then
    let split_cols := splitPlayerPositionDF (ppValues raw)
    let merged := hconcat (dropCol df "Player/Position") split_cols
    .ok (stripDF (renameWith leagueRename merged))
  else
    .error (.attributeError "Can only use .str accessor with string values")

/-- Lines 45–98, `get_league_injuries`, instrumented with the list of URLs
requested.  Parameter validation happens before the single GET; a missing
`table.items` raises `RuntimeError`. -/
def get_league_injuries (fetch : String → Except ScrapeError Page)
    (country_name league_slug league_code : Option String) :
    Except ScrapeError DataFrame × List String :=
  match resolveLeague country_name league_slug league_code with
  | .error e => (.error e, [])
  | .ok (slug, code) =>
      let url := leagueUrl slug code
      match fetch url with
      | .error e => (.error e, [url])
      | .ok page =>
          match page.itemsTable with
          | none =>
              (.error (.runtimeError "Tabela de lesões não encontrada."), [url])
          | some raw => (processLeagueTable raw, [url])

/-- Python `href.split("?")[0]`: the link with any query string removed. -/
def dropQuery (s : String) : String :=
  ⟨s.data.takeWhile (fun c => c ≠ '?')⟩

/-- Substring test, as in the CSS selector `a[href*='/profil/spieler/']`. -/
def containsSub (s pat : String) : Bool :=
  containsSubAux pat.data s.data

/-- The root of the team page, scheme plus `://` plus netloc, as line 117
computes it via `urlparse`, for an absolute `scheme://host/...` URL: the
scheme is the part before `://`, the netloc extends to the next `/`. -/
def urlRoot (u : String) : String :=
  match splitFirstSub "://".data u.data with
  | none => u
  | some p => ⟨p.1 ++ "://".data ++ p.2.takeWhile (fun c => c ≠ '/')⟩

/-- Python `urljoin(root, rel)` for a base of the shape `scheme://host` (no path),
restricted to the href forms that occur on these pages: an absolute URL is
kept as is, a root-relative path is attached to the root, an empty href
resolves to the base, and any other relative path is resolved against the
root directory `/`. -/
def urljoin (base rel : String) : String :=
  if strStarts rel "http://" || strStarts rel "https://" then rel
  else if strStarts rel "/" then base ++ rel
  else if rel = "" then base
  else base ++ "/" ++ rel

/-- Lines 104–121, `get_team_player_urls`, instrumented with the requested
URLs: fetch the team page, keep anchors whose href contains
`/profil/spieler/`, strip query strings, resolve against the page's own
scheme+host, deduplicate (a Python set) and sort.  `time.sleep(pause)` is
not modelled. -/
def get_team_player_urls (fetch : String → Except ScrapeError Page)
    (team_url : String) : Except ScrapeError (List String) × List String :=
  match fetch team_url with
  | .error e => (.error e, [team_url])
  | .ok page =>
      let root := urlRoot team_url
      let hrefs := page.anchors.filter
        (fun h => containsSub h "/profil/spieler/")
      let urls := (hrefs.map (fun h => urljoin root (dropQuery h))).dedup
      (.ok (urls.insertionSort (fun a b => a ≤ b)), [team_url])

/-- Line 133: `re.sub(r"/profil/", "/verletzungen/", player_url.rstrip("/"))`
— every occurrence of the profile segment replaced on the input with its
trailing slashes removed. -/
def injuryUrlOf (player_url : String) : String :=
  pyReplace (pyRStripSlash player_url) "/profil/" "/verletzungen/"

/-- The history table's column names after flattening and renaming
(lines 144–155). -/
def historyCols (raw : RawTable) : List String :=
  (flatten_columns raw.cols).map historyRename

/-- Pandas scalar column assignment `df[name] = v`: overwrite every column labelled `name`
in place when present, otherwise append a new trailing column. -/
def setCol (name : String) (v : Option String) (df : DataFrame) : DataFrame :=
  if name ∈ df.cols then
    ⟨df.cols,
     df.rows.map (fun r =>
       (List.range df.cols.length).map (fun i =>
         if df.cols.getD i "" = name then v else r.getD i none))⟩
  else ⟨df.cols ++ [name], df.rows.map (fun r => r ++ [v])⟩

/-- Lines 143–162 after a successful fetch and table location: flatten and
rename the columns, read the `h1` heading (`AttributeError` when absent,
`get_text(strip=True)` trims it), `df.insert(0, "Player", name)` (a
`ValueError` when a `Player` column already exists), set the trailing
`Profile URL` column to the input URL, and strip text cells. -/
def processHistory (page : Page) (player_url : String) (raw : RawTable) :
    Except ScrapeError DataFrame :=
  let df : DataFrame := ⟨historyCols raw, raw.rows⟩
  match page.h1 with
  | none => .error (.attributeError "NoneType object has no attribute get_text")
  | some h =>
      let player_name := pyStrip h
      if "Player" ∈ df.cols then
        .error (.valueError "cannot insert Player, already exists")
      else
        let df2 : DataFrame :=
          ⟨"Player" :: df.cols, df.rows.map (fun r => some player_name :: r)⟩
        .ok (stripDF (setCol "Profile URL" (some player_url) df2))

/-- Lines 127–162, `get_player_injury_history`, instrumented with the
requested URLs: derive the injuries URL, fetch it (exactly one GET in every
outcome), locate `table.items` (`RuntimeError` when absent), then process. -/
def get_player_injury_history (fetch : String → Except ScrapeError Page)
    (player_url : String) : Except ScrapeError DataFrame × List String :=
  let injury_url := injuryUrlOf player_url
  match fetch injury_url with
  | .error e => (.error e, [injury_url])
  | .ok page =>
      match page.itemsTable with
      | none =>
          (.error (.runtimeError "Histórico de lesões não encontrado."),
           [injury_url])
      | some raw => (processHistory page player_url raw, [injury_url])

/-- Line 182: the warning printed for a failing URL. -/
def warnMsg (url : String) (e : ScrapeError) : String :=
  "[WARN] falhou em " ++ url ++ ": " ++ errMsg e

/-- The union of the frames' column labels in order of first appearance,
as built by `pd.concat`'s index union. -/
def unionColsAux (acc : List String) : List DataFrame → List String
  | [] => acc
  | f :: fs =>
      unionColsAux (acc ++ (f.cols.filter (fun c => !acc.contains c)).dedup) fs

/-- A row of frame `fcols` re-indexed to the combined column list: cells of
columns the frame lacks become `NaN`. -/
def reindexRow (cols fcols : List String) (r : List (Option String)) :
    List (Option String) :=
  cols.map (fun c =>
    match fcols.findIdx? (fun x => x == c) with
    | some i => r.getD i none
    | none => none)

/-- Pandas `pd.concat(frames, ignore_index=True)`: all rows in frame order,
re-indexed to the union of the column labels. -/
def pdConcat (frames : List DataFrame) : DataFrame :=
  let cols := unionColsAux [] frames
  ⟨cols, (frames.map (fun f => f.rows.map (reindexRow cols f.cols))).flatten⟩

/-- The loop of lines 176–182: per URL, on success collect the frame, on
any failure record one warning and continue.  Returns (frames, requested
URLs, warnings), each in input order. -/
def batchGo (fetch : String → Except ScrapeError Page) :
    List String → List DataFrame × List String × List String
  | [] => ([], [], [])
  | url :: rest =>
      let r := get_player_injury_history fetch url
      let acc := batchGo fetch rest
      match r.1 with
      | .ok df => (df :: acc.1, r.2 ++ acc.2.1, acc.2.2)
      | .error e => (acc.1, r.2 ++ acc.2.1, warnMsg url e :: acc.2.2)

/-- Result of the batch driver: the combined table, the requested URLs and
the printed warnings. -/
structure BatchOut where
  result : DataFrame
  requested : List String
  warnings : List String
deriving DecidableEq, Repr

/-- Lines 168–183, `get_multiple_players_injury_history`: iterate the URLs,
concatenate the successful frames (`ignore_index=True`), or return the
explicitly empty `pd.DataFrame()` when none succeeded. -/
def get_multiple_players_injury_history
    (fetch : String → Except ScrapeError Page) (player_urls : List String) :
    BatchOut :=
  let acc := batchGo fetch player_urls
  ⟨if acc.1.isEmpty then ⟨[], []⟩ else pdConcat acc.1, acc.2.1, acc.2.2⟩

/-! ## Helper lemmas -/

lemma splitN1Aux_not_mem {a : List Char} (h : '\n' ∉ a) :
    splitN1Aux a = none := by
  induction a with
  | nil => rfl
  | cons c cs ih =>
      have hc : ¬ c = '\n' := fun hc => h (hc ▸ List.mem_cons_self c cs)
      simp [splitN1Aux, hc, ih (fun hm => h (List.mem_cons_of_mem c hm))]

lemma splitN1Aux_first {a : List Char} (b : List Char) (h : '\n' ∉ a) :
    splitN1Aux (a ++ '\n' :: b) = some (a, b) := by
  induction a with
  | nil => simp [splitN1Aux]
  | cons c cs ih =>
      have hc : ¬ c = '\n' := fun hc => h (hc ▸ List.mem_cons_self c cs)
      simp [splitN1Aux, hc, ih (fun hm => h (List.mem_cons_of_mem c hm))]

lemma splitN1_no_newline {s : String} (h : '\n' ∉ s.data) :
    splitN1 s = (s, none) := by
  simp [splitN1, splitN1Aux_not_mem h]

lemma splitN1_first_newline {a : String} (b : String) (h : '\n' ∉ a.data) :
    splitN1 (a ++ "\n" ++ b) = (a, some b) := by
  have hd : (a ++ "\n" ++ b).data = a.data ++ '\n' :: b.data := by
    simp [String.data_append]
  simp [splitN1, hd, splitN1Aux_first _ h]

/-- The per-value shape of the split block: `NaN` splits to a fully missing
row, a string splits at its first newline. -/
def splitRowOf : Option String → List (Option String)
  | none => [none, none]
  | some s => [some (splitN1 s).1, (splitN1 s).2]

lemma splitPP_cols (vals : List (Option String)) :
    (splitPlayerPositionDF vals).cols = ["Player", "Position"] := by
  simp only [splitPlayerPositionDF]
  split <;> simp

lemma splitPP_rows (vals : List (Option String)) :
    (splitPlayerPositionDF vals).rows = vals.map splitRowOf := by
  simp only [splitPlayerPositionDF]
  split
  · next htwo =>
      rw [if_pos (by simp)]
      simp only [List.map_map]
      refine List.map_congr_left (fun v _ => ?_)
      cases v <;> rfl
  · next htwo =>
      rw [if_neg (by simp)]
      simp only [List.map_map]
      refine List.map_congr_left (fun v hv => ?_)
      rcases v with _ | s
      · rfl
      · have hmem : Option.map splitN1 (some s) ∈
            vals.map (Option.map splitN1) := List.mem_map_of_mem _ hv
        have hnone : (splitN1 s).2 = none := by
          rcases hsnd : (splitN1 s).2 with _ | t
          · rfl
          · exfalso
            have := List.any_eq_false.mp (Bool.not_eq_true _ ▸ htwo) _ hmem
            simp [Option.map, hsnd] at this
        simp [splitRowOf, hnone, Function.comp]

lemma leagueRename_not_source (c : String) :
    leagueRename c ≠ "Club" ∧ leagueRename c ≠ "Injury" ∧
    leagueRename c ≠ "until" ∧ leagueRename c ≠ "Market Value" := by
  unfold leagueRename
  split_ifs <;> simp_all

lemma leagueRename_unrecognized {c : String} (h1 : c ≠ "Club")
    (h2 : c ≠ "Injury") (h3 : c ≠ "until") (h4 : c ≠ "Market Value") :
    leagueRename c = c := by
  unfold leagueRename
  split_ifs <;> simp_all

lemma leagueRename_idem (c : String) :
    leagueRename (leagueRename c) = leagueRename c := by
  unfold leagueRename
  split_ifs <;> simp_all

/-! ## Claims -/

/-- The flattening rule exactly as the spec words it: "if inner label is
present and non-empty/non-null, use it; otherwise use the outer label". -/
def specInnerWins (p : String × Option String) : String :=
  if p.2 ≠ none ∧ p.2 ≠ some "" then p.2.getD p.1 else p.1

/-- **C4.** `_flatten_columns` maps every two-level (outer, inner) column
header to the inner label when it is present and non-empty/non-null, and to
the outer label otherwise; being a total Lean function of the header list
alone, it is pure and has no error conditions. -/
theorem c4_flatten_prefers_inner (pairs : List (String × Option String)) :
    flatten_columns (.multi pairs) = pairs.map specInnerWins := by
  unfold flatten_columns specInnerWins
  refine List.map_congr_left (fun p _ => ?_)
  rcases p with ⟨o, _ | s⟩
  · simp
  · by_cases hs : s = "" <;> simp [hs]

/-- **C3.** In `get_league_injuries` the combined `Player/Position` value is
split on the first newline only: a value `a ++ "\n" ++ b` (with `a`
newline-free) yields Player `a` and Position `b`, a value with no newline
yields itself as Player with a null Position (no error), and every row of
the split block produced at lines 75–83 has exactly this shape. -/
theorem c3_split_first_newline_only :
    (∀ a b : String, '\n' ∉ a.data →
        splitN1 (a ++ "\n" ++ b) = (a, some b)) ∧
    (∀ s : String, '\n' ∉ s.data → splitN1 s = (s, none)) ∧
    (∀ vals : List (Option String),
        (splitPlayerPositionDF vals).rows = vals.map splitRowOf) :=
  ⟨fun _ b h => splitN1_first_newline b h,
   fun _ h => splitN1_no_newline h,
   splitPP_rows⟩

/-- Witness for C3 at the spec's own example values. -/
theorem c3_witness :
    ('\n' ∉ "J. Doe".data ∧
      splitN1 ("J. Doe" ++ "\n" ++ "Midfielder") =
        ("J. Doe", some "Midfielder")) ∧
    ('\n' ∉ "J. Doe".data ∧ splitN1 "J. Doe" = ("J. Doe", none)) :=
  ⟨⟨by decide, c3_split_first_newline_only.1 "J. Doe" "Midfielder" (by decide)⟩,
   ⟨by decide, c3_split_first_newline_only.2.1 "J. Doe" (by decide)⟩⟩

/-- **C5.** The league-view renaming is total and idempotent: whenever the
input columns contain Club, Injury, until and Market Value, the renamed
columns contain Team, Injury Type, Expected Return and Market Value (€) and
none of the four source names; unrecognized columns pass through unchanged;
renaming a second time changes nothing. -/
theorem c5_league_rename_total_idempotent (cols : List String)
    (h : "Club" ∈ cols ∧ "Injury" ∈ cols ∧ "until" ∈ cols ∧
      "Market Value" ∈ cols) :
    ("Team" ∈ cols.map leagueRename ∧
      "Injury Type" ∈ cols.map leagueRename ∧
      "Expected Return" ∈ cols.map leagueRename ∧
      "Market Value (€)" ∈ cols.map leagueRename) ∧
    ("Club" ∉ cols.map leagueRename ∧ "Injury" ∉ cols.map leagueRename ∧
      "until" ∉ cols.map leagueRename ∧
      "Market Value" ∉ cols.map leagueRename) ∧
    (∀ c ∈ cols, c ≠ "Club" → c ≠ "Injury" → c ≠ "until" →
      c ≠ "Market Value" → leagueRename c = c) ∧
    (cols.map leagueRename).map leagueRename = cols.map leagueRename := by
  obtain ⟨h1, h2, h3, h4⟩ := h
  refine ⟨⟨?_, ?_, ?_, ?_⟩, ⟨?_, ?_, ?_, ?_⟩, ?_, ?_⟩
  · exact List.mem_map.mpr ⟨"Club", h1, rfl⟩
  · exact List.mem_map.mpr ⟨"Injury", h2, rfl⟩
  · exact List.mem_map.mpr ⟨"until", h3, rfl⟩
  · exact List.mem_map.mpr ⟨"Market Value", h4, rfl⟩
  · intro hm
    obtain ⟨c, _, hc⟩ := List.mem_map.mp hm
    exact (leagueRename_not_source c).1 hc
  · intro hm
    obtain ⟨c, _, hc⟩ := List.mem_map.mp hm
    exact (leagueRename_not_source c).2.1 hc
  · intro hm
    obtain ⟨c, _, hc⟩ := List.mem_map.mp hm
    exact (leagueRename_not_source c).2.2.1 hc
  · intro hm
    obtain ⟨c, _, hc⟩ := List.mem_map.mp hm
    exact (leagueRename_not_source c).2.2.2 hc
  · exact fun c _ hc1 hc2 hc3 hc4 =>
      leagueRename_unrecognized hc1 hc2 hc3 hc4
  · rw [List.map_map]
    exact List.map_congr_left (fun c _ => leagueRename_idem c)

/-- Witness for C5 on a concrete league header row. -/
theorem c5_witness :
    ("Club" ∈ ["#", "Player/Position", "Club", "Injury", "until",
        "Market Value"] ∧
      "Injury" ∈ ["#", "Player/Position", "Club", "Injury", "until",
        "Market Value"] ∧
      "until" ∈ ["#", "Player/Position", "Club", "Injury", "until",
        "Market Value"] ∧
      "Market Value" ∈ ["#", "Player/Position", "Club", "Injury", "until",
        "Market Value"]) ∧
    ("Team" ∈ ["#", "Player/Position", "Club", "Injury", "until",
        "Market Value"].map leagueRename ∧
      "Injury Type" ∈ ["#", "Player/Position", "Club", "Injury", "until",
        "Market Value"].map leagueRename ∧
      "Expected Return" ∈ ["#", "Player/Position", "Club", "Injury", "until",
        "Market Value"].map leagueRename ∧
      "Market Value (€)" ∈ ["#", "Player/Position", "Club", "Injury", "until",
        "Market Value"].map leagueRename) ∧
    ("Club" ∉ ["#", "Player/Position", "Club", "Injury", "until",
        "Market Value"].map leagueRename ∧
      "Injury" ∉ ["#", "Player/Position", "Club", "Injury", "until",
        "Market Value"].map leagueRename ∧
      "until" ∉ ["#", "Player/Position", "Club", "Injury", "until",
        "Market Value"].map leagueRename ∧
      "Market Value" ∉ ["#", "Player/Position", "Club", "Injury", "until",
        "Market Value"].map leagueRename) ∧
    (∀ c ∈ ["#", "Player/Position", "Club", "Injury", "until",
        "Market Value"], c ≠ "Club" → c ≠ "Injury" → c ≠ "until" →
      c ≠ "Market Value" → leagueRename c = c) ∧
    (["#", "Player/Position", "Club", "Injury", "until",
        "Market Value"].map leagueRename).map leagueRename =
      ["#", "Player/Position", "Club", "Injury", "until",
        "Market Value"].map leagueRename := by
  have hmem : "Club" ∈ ["#", "Player/Position", "Club", "Injury", "until",
      "Market Value"] ∧
    "Injury" ∈ ["#", "Player/Position", "Club", "Injury", "until",
      "Market Value"] ∧
    "until" ∈ ["#", "Player/Position", "Club", "Injury", "until",
      "Market Value"] ∧
    "Market Value" ∈ ["#", "Player/Position", "Club", "Injury", "until",
      "Market Value"] := by decide
  exact ⟨hmem, c5_league_rename_total_idempotent _ hmem⟩

/-- **C8.** `get_player_injury_history` fetches exactly the URL obtained
from the input by stripping trailing slashes and replacing the profile
segment `/profil/` with the history segment `/verletzungen/` — in every
outcome (transport error, missing table, success) the single requested URL
is the derived one. -/
theorem c8_history_url_derived_and_fetched
    (fetch : String → Except ScrapeError Page) (player_url : String) :
    (get_player_injury_history fetch player_url).2 = [injuryUrlOf player_url] ∧
    injuryUrlOf player_url =
      pyReplace (pyRStripSlash player_url) "/profil/" "/verletzungen/" := by
  refine ⟨?_, rfl⟩
  simp only [get_player_injury_history]
  cases fetch (injuryUrlOf player_url) with
  | error e => rfl
  | ok page =>
      dsimp only
      cases page.itemsTable <;> rfl

/-- **C2.** `get_league_injuries` raises a `ValueError` with an empty
request log — i.e. before any network call — whenever the supplied (truthy)
`country_name` is unmapped, and whenever `country_name` is absent (falsy)
and `league_slug` or `league_code` is missing (falsy); when `country_name`
is absent and both manual values are present the call proceeds to issue
the single GET for the derived league URL. -/
theorem c2_config_error_before_network
    (fetch : String → Except ScrapeError Page)
    (country_name league_slug league_code : Option String) :
    (truthy country_name = true →
      LEAGUE_MAP (country_name.getD "") = none →
      get_league_injuries fetch country_name league_slug league_code =
        (.error (.valueError
          "País não mapeado; informe slug e código manualmente."), [])) ∧
    (truthy country_name = false →
      (truthy league_slug = false ∨ truthy league_code = false) →
      get_league_injuries fetch country_name league_slug league_code =
        (.error (.valueError "Faltou league_slug ou league_code."), [])) ∧
    (truthy country_name = false → truthy league_slug = true →
      truthy league_code = true →
      (get_league_injuries fetch country_name league_slug league_code).2 =
        [leagueUrl (league_slug.getD "") (league_code.getD "")]) := by
  refine ⟨fun hc hm => ?_, fun hc hsc => ?_, fun hc hs hcode => ?_⟩
  · simp [get_league_injuries, resolveLeague, hc, hm]
  · rcases hsc with hs | hcode
    · simp [get_league_injuries, resolveLeague, hc, hs]
    · simp [get_league_injuries, resolveLeague, hc, hcode]
  · simp only [get_league_injuries, resolveLeague, hc, Bool.false_eq_true,
      if_false, hs, hcode, Bool.and_self, if_true]
    cases fetch (leagueUrl (league_slug.getD "") (league_code.getD "")) with
    | error e => rfl
    | ok page =>
        dsimp only
        cases page.itemsTable <;> rfl

/-- Witness for C2: "Atlantis" is rejected with no request issued; a
missing slug is rejected with no request issued; Spain-shaped manual
parameters proceed to exactly one GET of the derived URL. -/
theorem c2_witness :
    (truthy (some "Atlantis") = true ∧ LEAGUE_MAP "Atlantis" = none ∧
      get_league_injuries (fun _ => .error (.transportError "down"))
          (some "Atlantis") none none =
        (.error (.valueError
          "País não mapeado; informe slug e código manualmente."), [])) ∧
    (truthy (none : Option String) = false ∧
      get_league_injuries (fun _ => .error (.transportError "down"))
          none none (some "ES1") =
        (.error (.valueError "Faltou league_slug ou league_code."), [])) ∧
    (get_league_injuries (fun _ => .error (.transportError "down"))
          none (some "laliga") (some "ES1")).2 =
      ["https://www.transfermarkt.us/laliga/verletztespieler/wettbewerb/ES1"] := by
  refine ⟨⟨rfl, rfl, ?_⟩, ⟨rfl, ?_⟩, ?_⟩
  · exact (c2_config_error_before_network _ (some "Atlantis") none none).1
      rfl rfl
  · exact (c2_config_error_before_network _ none none (some "ES1")).2.1
      rfl (Or.inl rfl)
  · have := (c2_config_error_before_network
      (fun u => .error (.transportError "down"))
      none (some "laliga") (some "ES1")).2.2 rfl rfl rfl
    simpa [leagueUrl, BASE_URL] using this

/-- **C6.** For every successfully fetched team page,
`get_team_player_urls` returns (requesting only the team URL itself) a
list without duplicates, sorted lexicographically, whose members are
exactly the player-profile anchors of the page with the query string
stripped and resolved against the page's own scheme+host — so two anchors
differing only in a query string contribute one entry. -/
theorem c6_team_urls_dedup_sorted
    (fetch : String → Except ScrapeError Page) (team_url : String)
    (page : Page) (hf : fetch team_url = .ok page) :
    ∃ l, get_team_player_urls fetch team_url = (.ok l, [team_url]) ∧
      l.Nodup ∧ l.Sorted (fun a b => a ≤ b) ∧
      ∀ u, u ∈ l ↔ ∃ h2 ∈ page.anchors,
        containsSub h2 "/profil/spieler/" = true ∧
        u = urljoin (urlRoot team_url) (dropQuery h2) := by
  refine ⟨((page.anchors.filter
      (fun h => containsSub h "/profil/spieler/")).map
      (fun h => urljoin (urlRoot team_url) (dropQuery h))).dedup.insertionSort
      (fun a b => a ≤ b), ?_, ?_, ?_, ?_⟩
  · simp only [get_team_player_urls, hf]
  · exact ((List.perm_insertionSort _ _).nodup_iff).mpr (List.nodup_dedup _)
  · exact List.sorted_insertionSort _ _
  · intro u
    rw [(List.perm_insertionSort _ _).mem_iff, List.mem_dedup, List.mem_map]
    constructor
    · rintro ⟨h2, hh2, hfu⟩
      exact ⟨h2, (List.mem_filter.mp hh2).1,
        (List.mem_filter.mp hh2).2, hfu.symm⟩
    · rintro ⟨h2, hmem, hpat, hu⟩
      exact ⟨h2, List.mem_filter.mpr ⟨hmem, hpat⟩, hu.symm⟩

/-- Witness for C6: a page carrying the same player once with and once
without a query string yields exactly one entry for that player. -/
theorem c6_witness :
    ((fun _ => Except.ok
        (Page.mk none none
          ["/profil/spieler/123?x=1", "/profil/spieler/123", "/other/x"])) :
      String → Except ScrapeError Page) "https://h/team/1" =
      .ok (Page.mk none none
        ["/profil/spieler/123?x=1", "/profil/spieler/123", "/other/x"]) ∧
    (∃ l, get_team_player_urls
        (fun _ => Except.ok
          (Page.mk none none
            ["/profil/spieler/123?x=1", "/profil/spieler/123", "/other/x"]))
        "https://h/team/1" = (.ok l, ["https://h/team/1"]) ∧
      l.Nodup ∧ l.Sorted (fun a b => a ≤ b) ∧
      ∀ u, u ∈ l ↔ ∃ h2 ∈ ["/profil/spieler/123?x=1", "/profil/spieler/123",
          "/other/x"],
        containsSub h2 "/profil/spieler/" = true ∧
        u = urljoin (urlRoot "https://h/team/1") (dropQuery h2)) := by
  exact ⟨rfl, c6_team_urls_dedup_sorted
    (fun _ => Except.ok
      (Page.mk none none
        ["/profil/spieler/123?x=1", "/profil/spieler/123", "/other/x"]))
    "https://h/team/1"
    (Page.mk none none
      ["/profil/spieler/123?x=1", "/profil/spieler/123", "/other/x"]) rfl⟩

lemma mem_zipWith_append {α : Type} {A B : List (List α)} {r : List α}
    (h : r ∈ List.zipWith (fun x y => x ++ y) A B) :
    ∃ a b, a ∈ A ∧ b ∈ B ∧ r = a ++ b := by
  induction A generalizing B with
  | nil => simp at h
  | cons a A ih =>
      cases B with
      | nil => simp at h
      | cons b B =>
          simp only [List.zipWith_cons_cons, List.mem_cons] at h
          rcases h with h | h
          · exact ⟨a, b, List.mem_cons_self a A, List.mem_cons_self b B, h⟩
          · obtain ⟨x, y, hx, hy, hr⟩ := ih h
            exact ⟨x, y, List.mem_cons_of_mem _ hx,
              List.mem_cons_of_mem _ hy, hr⟩

lemma getLast?_append_pair {α : Type} (l : List α) (p q : α) :
    (l ++ [p, q]).getLast? = some q := by
  have h2 : l ++ [p, q] = (l ++ [p]) ++ [q] := by simp
  rw [h2, List.getLast?_concat]

/-- **C10.** Whenever `get_league_injuries` successfully processes a source
table, the result has a `Position` column (it is in fact always the last
column); and when no `Player/Position` value contains a newline, that last
column is entirely null — the schema stays stable. -/
theorem c10_position_column_always_present (raw : RawTable) (df : DataFrame)
    (h : processLeagueTable raw = .ok df) :
    "Position" ∈ df.cols ∧
    ((∀ v ∈ ppValues raw, '\n' ∉ (v.getD "").data) →
      ∀ r ∈ df.rows, r.getLast? = some none) := by
  unfold processLeagueTable at h
  by_cases h0 : (leagueFlat raw).cols.count "Player/Position" = 0
  · rw [if_pos h0] at h
    exact absurd h (by simp)
  rw [if_neg h0] at h
  by_cases h1 : (leagueFlat raw).cols.count "Player/Position" = 1
  swap
  · rw [if_neg h1] at h
    exact absurd h (by simp)
  rw [if_pos h1] at h
  have hdf : df = stripDF (renameWith leagueRename
      (hconcat (dropCol (leagueFlat raw) "Player/Position")
        (splitPlayerPositionDF (ppValues raw)))) := (Except.ok.inj h).symm
  subst hdf
  constructor
  · show "Position" ∈ (((dropCol (leagueFlat raw) "Player/Position").cols ++
      (splitPlayerPositionDF (ppValues raw)).cols).map leagueRename)
    refine List.mem_map.mpr ⟨"Position", ?_, rfl⟩
    rw [splitPP_cols]
    simp
  · intro hnl r hr
    obtain ⟨row, hrow, hrmap⟩ := List.mem_map.mp hr
    obtain ⟨a, b, _, hb, hab⟩ := mem_zipWith_append hrow
    rw [splitPP_rows] at hb
    obtain ⟨v, hv, hbv⟩ := List.mem_map.mp hb
    have hshape : ∃ x, splitRowOf v = [x, none] := by
      rcases v with _ | s
      · exact ⟨none, rfl⟩
      · have hns : '\n' ∉ s.data := hnl (some s) hv
        refine ⟨some (splitN1 s).1, ?_⟩
        simp [splitRowOf, splitN1_no_newline hns]
    obtain ⟨x, hx⟩ := hshape
    subst hrmap hab
    rw [← hbv, hx, List.map_append]
    have hmap2 : ([x, none] : List (Option String)).map
        (Option.map pyStrip) = [Option.map pyStrip x, none] := rfl
    rw [hmap2, getLast?_append_pair]

/-- Witness for C10 on a one-row league table with no newline in the
combined field. -/
theorem c10_witness :
    processLeagueTable
        ⟨.flat ["Player/Position", "Club"], [[some "A. Smith", some "X"]]⟩ =
      .ok ⟨["Team", "Player", "Position"], [[some "X", some "A. Smith", none]]⟩ ∧
    ("Position" ∈ (DataFrame.mk ["Team", "Player", "Position"]
        [[some "X", some "A. Smith", none]]).cols ∧
      ((∀ v ∈ ppValues ⟨.flat ["Player/Position", "Club"],
          [[some "A. Smith", some "X"]]⟩, '\n' ∉ (v.getD "").data) →
        ∀ r ∈ (DataFrame.mk ["Team", "Player", "Position"]
          [[some "X", some "A. Smith", none]]).rows,
          r.getLast? = some none)) ∧
    (∀ r ∈ (DataFrame.mk ["Team", "Player", "Position"]
        [[some "X", some "A. Smith", none]]).rows,
      r.getLast? = some none) := by
  have hEq : processLeagueTable
      ⟨.flat ["Player/Position", "Club"], [[some "A. Smith", some "X"]]⟩ =
      .ok ⟨["Team", "Player", "Position"],
        [[some "X", some "A. Smith", none]]⟩ := rfl
  refine ⟨hEq, c10_position_column_always_present _ _ hEq, ?_⟩
  exact (c10_position_column_always_present _ _ hEq).2 (by decide)

/-- The concrete history page used for the C7 theorems: two history rows,
a heading with surrounding whitespace. -/
def pageC7 : Page :=
  ⟨some ⟨.flat ["From"], [[some " a "], [some "b"]]⟩, some " John Doe ", []⟩

/-- A network that always serves `pageC7`. -/
def fetchC7 : String → Except ScrapeError Page := fun _ => .ok pageC7

/-- **C7 (amended).** For every page processed by
`get_player_injury_history` whose located table has no `Player` and no
`Profile URL` column of its own, every row of the returned table carries
the identical player display name (the page's primary heading, trimmed)
as the first column and the identical whitespace-trimmed input player URL
as a trailing column — equal to the original input URL whenever that URL
has no leading or trailing whitespace.  (The original claim's
"untransformed input URL" fails: the final `.str.strip()` pass of line 161
also trims the stamped URL column, see the counterexample.) -/
theorem c7_rows_stamped_amended
    (fetch : String → Except ScrapeError Page) (player_url : String)
    (page : Page) (raw : RawTable) (hstr : String)
    (hf : fetch (injuryUrlOf player_url) = .ok page)
    (ht : page.itemsTable = some raw)
    (hh : page.h1 = some hstr)
    (hp : "Player" ∉ historyCols raw)
    (hpu : "Profile URL" ∉ historyCols raw) :
    ∃ df, (get_player_injury_history fetch player_url).1 = .ok df ∧
      ∀ r ∈ df.rows,
        r.head? = some (some (pyStrip (pyStrip hstr))) ∧
        r.getLast? = some (some (pyStrip player_url)) := by
  have hnp : "Profile URL" ∉ ("Player" :: historyCols raw) := by
    intro hmem
    rcases List.mem_cons.mp hmem with hcase | hcase
    · exact absurd hcase (by decide)
    · exact hpu hcase
  simp only [get_player_injury_history, hf, ht]
  simp only [processHistory, hh]
  rw [if_neg hp]
  simp only [setCol]
  rw [if_neg hnp]
  refine ⟨_, rfl, ?_⟩
  intro r hr
  simp only [stripDF] at hr
  obtain ⟨row, hrow, hrf⟩ := List.mem_map.mp hr
  obtain ⟨r0, hr0, hrf2⟩ := List.mem_map.mp hrow
  obtain ⟨r1, hr1, hrf3⟩ := List.mem_map.mp hr0
  subst hrf hrf2 hrf3
  constructor
  · rfl
  · rw [List.map_append]
    exact List.getLast?_concat _

/-- Witness for C7 at a page yielding two history rows, a padded heading
and a clean URL. -/
theorem c7_witness :
    (fetchC7 (injuryUrlOf "https://h/profil/spieler/9") = .ok pageC7 ∧
      pageC7.itemsTable =
        some ⟨.flat ["From"], [[some " a "], [some "b"]]⟩ ∧
      pageC7.h1 = some " John Doe " ∧
      "Player" ∉ historyCols ⟨.flat ["From"], [[some " a "], [some "b"]]⟩ ∧
      "Profile URL" ∉
        historyCols ⟨.flat ["From"], [[some " a "], [some "b"]]⟩) ∧
    (∃ df, (get_player_injury_history fetchC7 "https://h/profil/spieler/9").1 =
        .ok df ∧
      ∀ r ∈ df.rows,
        r.head? = some (some (pyStrip (pyStrip " John Doe "))) ∧
        r.getLast? = some (some (pyStrip "https://h/profil/spieler/9"))) := by
  refine ⟨⟨rfl, rfl, rfl, by decide, by decide⟩, ?_⟩
  exact c7_rows_stamped_amended fetchC7 "https://h/profil/spieler/9" pageC7
    ⟨.flat ["From"], [[some " a "], [some "b"]]⟩ " John Doe "
    rfl rfl rfl (by decide) (by decide)

/-- Counterexample to C7 as stated: for the input URL
`" https://h/profil/spieler/9 "` (surrounding whitespace) the trailing
`Profile URL` cell of the returned table holds the stripped URL — line 161
applies `.str.strip()` to the stamped column too — so it is not the
original untransformed input. -/
theorem c7_counterexample :
    (get_player_injury_history fetchC7 " https://h/profil/spieler/9 ").1 =
      .ok ⟨["Player", "Start", "Profile URL"],
        [[some "John Doe", some "a", some "https://h/profil/spieler/9"],
         [some "John Doe", some "b", some "https://h/profil/spieler/9"]]⟩ ∧
    ("https://h/profil/spieler/9" : String) ≠ " https://h/profil/spieler/9 " :=
  ⟨rfl, by decide⟩

lemma batchGo_frames (fetch : String → Except ScrapeError Page)
    (urls : List String) :
    (batchGo fetch urls).1 = urls.filterMap
      (fun u => ((get_player_injury_history fetch u).1).toOption) := by
  induction urls with
  | nil => rfl
  | cons u rest ih =>
      simp only [batchGo, List.filterMap_cons]
      cases hres : (get_player_injury_history fetch u).1 with
      | ok df => simp [hres, Except.toOption, ih]
      | error e => simp [hres, Except.toOption, ih]

lemma batchGo_warnings (fetch : String → Except ScrapeError Page)
    (urls : List String) :
    (batchGo fetch urls).2.2 = urls.filterMap
      (fun u =>
        match (get_player_injury_history fetch u).1 with
        | .ok _ => none
        | .error e => some (warnMsg u e)) := by
  induction urls with
  | nil => rfl
  | cons u rest ih =>
      simp only [batchGo, List.filterMap_cons]
      cases hres : (get_player_injury_history fetch u).1 with
      | ok df => simp [hres, ih]
      | error e => simp [hres, ih]

/-- **C1.** For every fetch oracle and URL list, the batch driver returns
the concatenation (in input order, rows in table order) of exactly the
per-URL tables that succeed, and its warning list has exactly one entry
per failing URL, in input order, naming that URL and the failure reason —
so a bad URL is skipped and never aborts the batch. -/
theorem c1_batch_skips_failures_and_concats
    (fetch : String → Except ScrapeError Page) (urls : List String) :
    (get_multiple_players_injury_history fetch urls).result =
      pdConcat (urls.filterMap
        (fun u => ((get_player_injury_history fetch u).1).toOption)) ∧
    (get_multiple_players_injury_history fetch urls).warnings =
      urls.filterMap (fun u =>
        match (get_player_injury_history fetch u).1 with
        | .ok _ => none
        | .error e => some (warnMsg u e)) := by
  constructor
  · simp only [get_multiple_players_injury_history]
    rw [batchGo_frames]
    rcases hcase : urls.filterMap
        (fun u => ((get_player_injury_history fetch u).1).toOption) with
      _ | ⟨d, ds⟩ <;> simp [hcase, pdConcat, unionColsAux]
  · simp only [get_multiple_players_injury_history]
    exact batchGo_warnings fetch urls

/-- **C9.** When zero per-URL extractions succeed — the empty URL list
included — the batch driver returns the explicitly empty table `⟨[], []⟩`
(`pd.DataFrame()`), not an error and not an absent value (its result type
is a total `DataFrame`). -/
theorem c9_zero_successes_empty_table
    (fetch : String → Except ScrapeError Page) (urls : List String)
    (h : ∀ u ∈ urls, ∃ e,
      (get_player_injury_history fetch u).1 = .error e) :
    (get_multiple_players_injury_history fetch urls).result =
      DataFrame.mk [] [] := by
  have hnil : (batchGo fetch urls).1 = [] := by
    rw [batchGo_frames, List.filterMap_eq_nil_iff]
    intro u hu
    obtain ⟨e, he⟩ := h u hu
    simp [he, Except.toOption]
  simp [get_multiple_players_injury_history, hnil]

/-- Witness for C9: a network that refuses every request makes every
extraction fail, and the batch over two URLs returns the empty table. -/
theorem c9_witness :
    (∀ u ∈ (["u1", "u2"] : List String), ∃ e,
      (get_player_injury_history
        (fun _ => .error (.transportError "down")) u).1 = .error e) ∧
    (get_multiple_players_injury_history
        (fun _ => .error (.transportError "down")) ["u1", "u2"]).result =
      DataFrame.mk [] [] := by
  have hall : ∀ u ∈ (["u1", "u2"] : List String), ∃ e,
      (get_player_injury_history
        (fun _ => .error (.transportError "down")) u).1 = .error e :=
    fun u _ => ⟨.transportError "down", rfl⟩
  exact ⟨hall, c9_zero_successes_empty_table _ _ hall⟩

end Scraper
